import Mathlib

/-!
Verification of the static configuration record in `nuxt.config.ts`.

The repository's only machine-readable artifact is the configuration
object passed to `defineNuxtConfig`.  We embed its shape as Lean
structures and its value as a literal, mirroring the source field by
field, and prove the schema-level properties claimed about it.
-/

/-- Shape of the `devtools` option block (`{ enabled: true }`). -/
structure DevtoolsOptions where
  enabled : Bool
deriving DecidableEq, Repr

/-- One entry of `pwa.manifest.icons`: a source path, a dimension
string and a media type, exactly the three fields each literal has. -/
structure Icon where
  src : String
  sizes : String
  type : String
deriving DecidableEq, Repr

/-- Shape of the `pwa.manifest` block. -/
structure PwaManifest where
  name : String
  short_name : String
  description : String
  theme_color : String
  background_color : String
  display : String
  icons : List Icon
deriving DecidableEq, Repr

/-- Shape of the `pwa.workbox` block. -/
structure WorkboxOptions where
  globPatterns : List String
deriving DecidableEq, Repr

/-- Shape of the `pwa.devOptions` block. -/
structure DevOptions where
  enabled : Bool
deriving DecidableEq, Repr

/-- Shape of the `pwa` block. -/
structure PwaOptions where
  manifest : PwaManifest
  workbox : WorkboxOptions
  devOptions : DevOptions
deriving DecidableEq, Repr

/-- A value assigned to one field of a per-route options record.  The
source assigns only literals, so we keep the untyped JSON-like shape in
order to be able to state which fields an options record contains. -/
inductive RouteRuleValue where
  | bool (b : Bool)
  | str (s : String)
deriving DecidableEq, Repr

/-- A per-route options record: the ordered field list of the object
literal, each field a name paired with its literal value. -/
abbrev RouteRuleOptions : Type := List (String × RouteRuleValue)

/-- The whole configuration record, one field per top-level key of the
object literal in `nuxt.config.ts`. -/
structure NuxtConfig where
  compatibilityDate : String
  devtools : DevtoolsOptions
  routeRules : List (String × RouteRuleOptions)
  modules : List String
  css : List String
  pwa : PwaOptions
deriving DecidableEq, Repr

/-- The object literal of `nuxt.config.ts`, field by field. -/
def nuxtConfigLiteral : NuxtConfig :=
  { compatibilityDate := "2025-07-15"
    devtools := { enabled := true }
    routeRules := [("/api/**", [("cors", RouteRuleValue.bool true)])]
    modules :=
      [ "@nuxt/ui"
      , "@nuxt/image"
      , "@pinia/nuxt"
      , "@vueuse/nuxt"
      , "@vueuse/motion/nuxt"
      , "@vite-pwa/nuxt"
      , "@nuxtjs/supabase"
      , "nuxt-security" ]
    css := ["~/assets/css/main.css"]
    pwa :=
      { manifest :=
          { name := "Nuxt App"
            short_name := "NuxtApp"
            description := "A Nuxt PWA"
            theme_color := "#ffffff"
            background_color := "#ffffff"
            display := "standalone"
            icons :=
              [ { src := "/icon-192.png", sizes := "192x192", type := "image/png" }
              , { src := "/icon-512.png", sizes := "512x512", type := "image/png" } ] }
        workbox := { globPatterns := ["**/*.\x7bjs,css,png,svg,ico\x7d"] }
        devOptions := { enabled := true } } }

/-- `defineNuxtConfig`, the single operation the source applies to the
configuration record: it returns its argument unchanged (it exists only
to drive type inference in the original source). -/
def defineNuxtConfig (config : NuxtConfig) : NuxtConfig := config

/-- The exported configuration value: the literal passed through
`defineNuxtConfig`. -/
def nuxtConfig : NuxtConfig := defineNuxtConfig nuxtConfigLiteral

/-- Splits a character list at every occurrence of the separator, the
separators themselves dropped; mirrors splitting a string on a
one-character separator. -/
def splitOnChar (sep : Char) : List Char → List (List Char)
  | [] => [[]]
  | c :: cs =>
    let rest := splitOnChar sep cs
    if c == sep then [] :: rest
    else
      match rest with
      | [] => [[c]]
      | g :: gs => (c :: g) :: gs

/-- Reads a decimal digit list into `acc`, failing on a non-digit. -/
def digitsToNatAux : Nat → List Char → Option Nat
  | acc, [] => some acc
  | acc, c :: cs =>
    if c.isDigit then digitsToNatAux (acc * 10 + (c.toNat - 48)) cs else none

/-- Parses a nonempty decimal digit list as a natural number. -/
def digitsToNat? : List Char → Option Nat
  | [] => none
  | l => digitsToNatAux 0 l

/-- Parses a dimension string of the form "NxN" (width equals height),
returning the common side length; any other shape yields `none`. -/
def parseSquareSizes (s : String) : Option Nat :=
  match splitOnChar 'x' s.data with
  | [w, h] =>
    match digitsToNat? w, digitsToNat? h with
    | some a, some b => if a = b then some a else none
    | _, _ => none
  | _ => none

/-- Checks one manifest icon entry for internal consistency: its sizes
field is a square dimension "NxN", its source path is the PNG file
named after that same N, and its declared media type is `image/png`. -/
def iconConsistent (i : Icon) : Bool :=
  match parseSquareSizes i.sizes with
  | some n =>
    (i.src == "/icon-" ++ toString n ++ ".png") && (i.type == "image/png")
  | none => false

/-- The icon literal for side length `n` with a matching filename,
dimension string and PNG media type. -/
def squarePngIcon (n : Nat) : Icon :=
  { src := "/icon-" ++ toString n ++ ".png"
    sizes := toString n ++ "x" ++ toString n
    type := "image/png" }

/-- Checks that a per-route options record consists of exactly the
field `cors`, carrying a boolean value, and nothing else. -/
def onlyCorsOverride (opts : RouteRuleOptions) : Bool :=
  (opts.map Prod.fst == ["cors"]) &&
  opts.all (fun kv =>
    match kv.2 with
    | RouteRuleValue.bool _ => true
    | _ => false)

/-- A character admissible inside a URL path pattern: a path segment
character (alphanumeric or one of `-`, `_`, `.`, `:`), the segment
separator `/`, or the glob wildcard `*`. -/
def isRoutePatternChar (c : Char) : Bool :=
  c.isAlphanum || c == '/' || c == '*' || c == '-' || c == '_' || c == '.' || c == ':'

/-- A syntactically valid URL path pattern: nonempty, beginning with
`/`, made only of path-segment characters and glob wildcards. -/
def isValidRoutePattern (s : String) : Bool :=
  match s.data with
  | [] => false
  | c :: _ => (c == '/') && s.data.all isRoutePatternChar

/-- Number of days of month `m` in year `y` of the Gregorian calendar. -/
def daysInMonth (y m : Nat) : Nat :=
  if m = 2 then
    if y % 4 = 0 ∧ (y % 100 ≠ 0 ∨ y % 400 = 0) then 29 else 28
  else if m = 4 ∨ m = 6 ∨ m = 9 ∨ m = 11 then 30
  else 31

/-- Parses a well-formed calendar date in YYYY-MM-DD form: three
dash-separated all-digit groups of widths 4, 2 and 2, whose month lies
in 1..12 and whose day exists in that month of that year. -/
def parseCalendarDate (s : String) : Option (Nat × Nat × Nat) :=
  match splitOnChar '-' s.data with
  | [y, m, d] =>
    if (y.length == 4) && (m.length == 2) && (d.length == 2)
        && y.all Char.isDigit && m.all Char.isDigit && d.all Char.isDigit then
      match digitsToNat? y, digitsToNat? m, digitsToNat? d with
      | some yn, some mn, some dn =>
        if 1 ≤ mn ∧ mn ≤ 12 ∧ 1 ≤ dn ∧ dn ≤ daysInMonth yn mn then
          some (yn, mn, dn)
        else none
      | _, _, _ => none
    else none
  | _ => none

/-- Claim C1: every entry of the modules sequence is unique; at any two
distinct positions of the configuration's modules list the module names
differ. -/
theorem modules_entries_unique : nuxtConfig.modules.Nodup := by decide

/-- Claim C2: every icon entry in `pwa.manifest.icons` is consistent:
its sizes string names square dimensions matching the icon file its
source path references and matching its declared `image/png` media
type. -/
theorem manifest_icons_consistent :
    nuxtConfig.pwa.manifest.icons.all iconConsistent = true := by decide

/-- Claim C3: every options record in the routeRules mapping is limited
to a cross-origin toggle: it holds exactly the field `cors`, carrying a
boolean, and no other per-route override. -/
theorem routeRules_values_only_cors :
    (nuxtConfig.routeRules.map Prod.snd).all onlyCorsOverride = true := by decide

/-- Claim C4: the configuration is a constant with no mutating
operation: the single operation the source defines over the
configuration record, `defineNuxtConfig`, returns its argument
unchanged, and the exported value is the unchanged literal. -/
theorem config_constant_no_mutating_operation :
    (∀ c : NuxtConfig, defineNuxtConfig c = c) ∧ nuxtConfig = nuxtConfigLiteral :=
  ⟨fun _ => rfl, rfl⟩

/-- Claim C5: the modules option equals exactly the eight-element
ordered list of the eight integration names, in source order. -/
theorem modules_exact_ordered_list :
    nuxtConfig.modules =
      [ "@nuxt/ui"
      , "@nuxt/image"
      , "@pinia/nuxt"
      , "@vueuse/nuxt"
      , "@vueuse/motion/nuxt"
      , "@vite-pwa/nuxt"
      , "@nuxtjs/supabase"
      , "nuxt-security" ] ∧
    nuxtConfig.modules.length = 8 := by decide

/-- Claim C6: every key of the routeRules mapping is a syntactically
valid URL path pattern: it begins with a slash and consists only of
path segments and glob wildcards. -/
theorem routeRules_keys_valid_patterns :
    (nuxtConfig.routeRules.map Prod.fst).all isValidRoutePattern = true := by decide

/-- Claim C7: the compatibilityDate option parses as a well-formed
YYYY-MM-DD calendar date, namely July 15, 2025. -/
theorem compatibilityDate_wellformed :
    parseCalendarDate nuxtConfig.compatibilityDate = some (2025, 7, 15) := by decide

/-- Claim C8: the manifest icon list consists exactly of the square PNG
icons for 192 and 512: in each entry the filename, the declared NxN
size and the `image/png` media type agree on the same N. -/
theorem icons_square_png_agree :
    nuxtConfig.pwa.manifest.icons = [squarePngIcon 192, squarePngIcon 512] := by decide

/-- Claim C9: both development-time boolean flags are set: the devtools
flag and the PWA development-options flag are both true. -/
theorem dev_flags_both_true :
    nuxtConfig.devtools.enabled = true ∧ nuxtConfig.pwa.devOptions.enabled = true := by decide

/-- Claim C10: the routeRules mapping has exactly one key, the pattern
for the `/api/` prefix; no other URL pattern carries a per-route
override. -/
theorem routeRules_single_api_key :
    nuxtConfig.routeRules.map Prod.fst = ["/api/**"] := by decide
